import Mathlib

/-!
Shallow embedding of `src/c/crosschain_typescript.c`, a CKB type script.

The script validates "transfer" cells: `main` counts the cells of its own
script group among inputs and outputs, routes to `verify_init` (group-input
count 0, unconditional accept) or `verify_transfer` (count 1), which checks
the capacity invariant, rebuilds the signing digest over the transaction
hash and witnesses (with witness 0's lock field masked to zeros), recovers
a public key from the 65-byte recoverable signature and matches its
blake160 short hash against the 20-byte chunks of the script args.

External collaborators (host syscalls, the molecule schema decoder, blake2b
and secp256k1, all outside `src/`) are modelled as an abstract environment
`Env`; the transaction data visible through the syscall interface is the
structure `Tx`.  Bytes are `Nat`s (understood mod 256), byte buffers are
`List Nat`, status codes are `Int`.
-/

namespace Crosschain

/-! Status codes from `crosschain_typescript.c` (lines 12-18, 43-46). -/

def CKB_SUCCESS : Int := 0
def CKB_INDEX_OUT_OF_BOUND : Int := 1
def ERROR_ARGUMENTS_LEN : Int := -1
def ERROR_ENCODING : Int := -2
def ERROR_SYSCALL : Int := -3
def ERROR_SCRIPT_TOO_LONG : Int := -21
def ERROR_GROUP_OUTPUT_INVALID : Int := -100
def ERROR_GROUP_INPUT_INVALID : Int := -101
def ERROR_CAPACITY_INVALID : Int := -102
def ERROR_VALIDATOR_SIGNATURE_INVALID : Int := -103

/-- Modelled from the spec: `ERROR_WITNESS_SIZE` is referenced by the source
but defined in the shared CKB header `common.h`, which is not under `src/`;
the spec's §7 "Resource-limit" taxonomy assigns it a distinct negative code
(the standard header value is -22). -/
def ERROR_WITNESS_SIZE : Int := -22

/-- Modelled from the spec: curve-operation failure codes referenced by the
source but defined in the shared CKB header `common.h` (not under `src/`);
§7 requires distinct negative codes (standard header values -11, -14, -15). -/
def ERROR_SECP_RECOVER_PUBKEY : Int := -11

/-- Modelled from the spec: see `ERROR_SECP_RECOVER_PUBKEY`. -/
def ERROR_SECP_PARSE_SIGNATURE : Int := -14

/-- Modelled from the spec: see `ERROR_SECP_RECOVER_PUBKEY`. -/
def ERROR_SECP_SERIALIZE_PUBKEY : Int := -15

/-! Size constants from `crosschain_typescript.c` (lines 9-34). -/

def SCRIPT_SIZE : Nat := 32768
def MAX_WITNESS_SIZE : Nat := 32768
def SIGNATURE_SIZE : Nat := 65
def BLAKE160_SIZE : Nat := 20
def BLAKE2B_BLOCK_SIZE : Nat := 32

/-- Abstract interface of the external collaborators (spec §1 "out of
scope", §6): the blake2b-256 primitive, the molecule schema decoder for
`Script` args and the `WitnessArgs` lock field, and the secp256k1 library.
`extractWitnessLock` returns the (offset, size) of the lock field's raw
bytes inside the witness buffer (`lock_bytes_seg` in the source);
`secpParse` takes the full 65-byte lock (64-byte compact signature plus
recovery id at index 64, exactly the bytes the source hands to
`secp256k1_ecdsa_recoverable_signature_parse_compact`); `secpRecover`
maps (lock bytes, 32-byte digest) to an internal public-key value and
`secpSerialize` maps that to the 33-byte compressed form. -/
structure Env where
  blake2b : List Nat → List Nat
  decodeScriptArgs : List Nat → Option (List Nat)
  extractWitnessLock : List Nat → Option (Nat × Nat)
  secpParse : List Nat → Bool
  secpRecover : List Nat → List Nat → Option (List Nat)
  secpSerialize : List Nat → Option (List Nat)

/-- The transaction data reachable through the host syscalls, per source
category (spec §6): capacities of the cells of this script's group among
inputs and outputs (`ckb_load_cell_data` / `ckb_load_cell_by_field` with
the group sources), the witnesses visible through the group-input source
and through the whole-transaction input source, the total number of
transaction inputs (`calculate_inputs_len`, a helper from the shared
header), and the canonical 32-byte transaction hash. -/
structure Tx where
  script : List Nat
  groupInputCells : List Nat
  groupOutputCells : List Nat
  groupWitnesses : List (List Nat)
  witnesses : List (List Nat)
  inputsLen : Nat
  txHash : List Nat

/-- Host cell-data query (`ckb_load_cell_data` at index `i`): success while
the index is in range, the out-of-range sentinel afterwards. -/
def ckb_load_cell_data (cells : List Nat) (i : Nat) : Int :=
  if i < cells.length then CKB_SUCCESS else CKB_INDEX_OUT_OF_BOUND

/-- The `while` loop of `get_cell_num` (source lines 61-68): query index
`i`, stop when the host signals out-of-range, else advance.  The fuel
argument bounds the iteration count and is chosen large enough to never
run out. -/
def get_cell_num_loop (cells : List Nat) : Nat → Nat → Nat
  | 0, i => i
  | fuel + 1, i =>
    if ckb_load_cell_data cells i = CKB_INDEX_OUT_OF_BOUND then i
    else get_cell_num_loop cells fuel (i + 1)

/-- `get_cell_num` (source lines 55-70). -/
def get_cell_num (cells : List Nat) : Nat :=
  get_cell_num_loop cells (cells.length + 1) 0

lemma get_cell_num_loop_eq (cells : List Nat) :
    ∀ fuel i, cells.length ≤ i + fuel → i ≤ cells.length →
      get_cell_num_loop cells fuel i = cells.length := by
  intro fuel
  induction fuel with
  | zero =>
    intro i h1 h2
    unfold get_cell_num_loop
    omega
  | succ n ih =>
    intro i h1 h2
    unfold get_cell_num_loop
    by_cases hc : ckb_load_cell_data cells i = CKB_INDEX_OUT_OF_BOUND
    · simp only [hc, if_true]
      unfold ckb_load_cell_data at hc
      by_cases hlt : i < cells.length
      · simp [hlt, CKB_SUCCESS, CKB_INDEX_OUT_OF_BOUND] at hc
      · omega
    · simp only [hc, if_false]
      unfold ckb_load_cell_data at hc
      by_cases hlt : i < cells.length
      · exact ih (i + 1) (by omega) (by omega)
      · simp [hlt] at hc

/-- The classifier's count equals the number of cells in the source. -/
lemma get_cell_num_eq_length (cells : List Nat) :
    get_cell_num cells = cells.length := by
  unfold get_cell_num
  exact get_cell_num_loop_eq cells (cells.length + 1) 0 (by omega) (by omega)

/-- The 8 bytes of a length value as a 64-bit little-endian integer, as fed
to `blake2b_update(&blake2b_ctx, (char *)&len, sizeof(uint64_t))`. -/
def le64 (n : Nat) : List Nat :=
  [n % 256, n / 256 % 256, n / 256 ^ 2 % 256, n / 256 ^ 3 % 256,
   n / 256 ^ 4 % 256, n / 256 ^ 5 % 256, n / 256 ^ 6 % 256, n / 256 ^ 7 % 256]

/-- The blake2b accumulator state: the byte stream absorbed so far.
`blake2b_init` starts from the empty stream. -/
def blake2b_init : List Nat := []

/-- `blake2b_update`: absorb `data` into the accumulator. -/
def blake2b_update (st data : List Nat) : List Nat := st ++ data

/-- `blake2b_final`: the 32-byte digest of the absorbed stream, via the
abstract blake2b-256 primitive. -/
def blake2b_final (env : Env) (st : List Nat) : List Nat := env.blake2b st

/-- The in-place `memset(lock_bytes_seg.ptr, 0, lock_bytes_seg.size)` of
source line 209: the witness buffer with the `s` lock bytes starting at
offset `o` overwritten by zeros. -/
def maskLock (w : List Nat) (o s : Nat) : List Nat :=
  w.take o ++ List.replicate s 0 ++ w.drop (o + s)

/-- The per-witness contribution to the signing stream: the 8-byte
little-endian length followed by the raw bytes (source lines 236-237). -/
def witnessChunk (w : List Nat) : List Nat := le64 w.length ++ w

/-- One of the two witness-hashing `while` loops of `verify_transfer`
(source lines 219-239 and 248-267): the remaining witnesses of the source
are absorbed in order, each preceded by its 8-byte little-endian length;
a witness above the 32 KiB cap aborts with `ERROR_WITNESS_SIZE`; the loop
ends when the host signals index-out-of-range (here: the list ends). -/
def hashWitnessLoop (st : List Nat) : List (List Nat) → Except Int (List Nat)
  | [] => Except.ok st
  | w :: rest =>
    if w.length > MAX_WITNESS_SIZE then Except.error ERROR_WITNESS_SIZE
    else hashWitnessLoop (blake2b_update (blake2b_update st (le64 w.length)) w) rest

/-- The Signing-Message Builder (source lines 188-269), starting from the
transaction-hash load: absorb the 32-byte transaction hash, then the masked
witness 0 preceded by its length, then the group-input witnesses from index
1, then the whole-transaction witnesses from index `inputsLen`; finalize to
the 32-byte digest.  `gwsTail` and `wsTail` are the witness tails the two
loops enumerate. -/
def buildDigest (env : Env) (txHash w0 : List Nat) (o s : Nat)
    (gwsTail wsTail : List (List Nat)) : Except Int (List Nat) :=
  if txHash.length ≠ BLAKE2B_BLOCK_SIZE then Except.error ERROR_SYSCALL
  else
    match hashWitnessLoop
        (blake2b_update (blake2b_update (blake2b_update blake2b_init txHash)
          (le64 w0.length)) (maskLock w0 o s)) gwsTail with
    | Except.error e => Except.error e
    | Except.ok st1 =>
      match hashWitnessLoop st1 wsTail with
      | Except.error e => Except.error e
      | Except.ok st2 => Except.ok (blake2b_final env st2)

/-- The validator-matcher `while` loop (source lines 309-316): scan the
aligned 20-byte chunks of `args` at index 0, 20, 40, ... while
`index + 20 <= args.length`, returning true on the first chunk equal to
the short hash.  The fuel bounds the iteration count and is chosen large
enough to never run out. -/
def chunkMatchLoop (args short : List Nat) : Nat → Nat → Bool
  | 0, _ => false
  | fuel + 1, index =>
    if index + BLAKE160_SIZE ≤ args.length then
      if (args.drop index).take BLAKE160_SIZE == short then true
      else chunkMatchLoop args short fuel (index + BLAKE160_SIZE)
    else false

/-- The validator matcher: does some aligned 20-byte chunk of `args` equal
`short`? -/
def chunkMatch (args short : List Nat) : Bool :=
  chunkMatchLoop args short (args.length + 1) 0

/-- The secp256k1 pipeline of `verify_transfer` (source lines 283-300) as a
single partial function: parse the 65-byte lock as a recoverable signature,
recover the public key from (signature, digest), serialize it compressed;
`none` when any stage fails. -/
def recoverChain (env : Env) (lock msg : List Nat) : Option (List Nat) :=
  if env.secpParse lock then
    match env.secpRecover lock msg with
    | none => none
    | some pk => env.secpSerialize pk
  else none

/-- `verify_init` (source lines 325-327). -/
def verify_init : Int := CKB_SUCCESS

/-- `verify_transfer` (source lines 103-323).  The capacity fields load as
64-bit unsigned integers (hence the mod 2^64); the two loads fail with the
host's raw return value only when the indexed cell is absent, which `main`
rules out before calling.  All later steps follow the source order:
script reload and size check, molecule decode of the args, args-length
check, witness-0 load, size check and lock extraction, signature-length
check, digest construction, signature parse / recover / serialize, short
hash and validator matching. -/
def verify_transfer (env : Env) (tx : Tx) : Int :=
  match tx.groupInputCells.get? 0 with
  | none => CKB_INDEX_OUT_OF_BOUND
  | some cin =>
    match tx.groupOutputCells.get? 0 with
    | none => CKB_INDEX_OUT_OF_BOUND
    | some cout =>
      if cout % 2 ^ 64 < cin % 2 ^ 64 then ERROR_CAPACITY_INVALID
      else if tx.script.length > SCRIPT_SIZE then ERROR_SCRIPT_TOO_LONG
      else
        match env.decodeScriptArgs tx.script with
        | none => ERROR_ENCODING
        | some args =>
          if args.length % BLAKE160_SIZE ≠ 0 then ERROR_ARGUMENTS_LEN
          else
            match tx.groupWitnesses.get? 0 with
            | none => ERROR_SYSCALL
            | some w0 =>
              if w0.length > MAX_WITNESS_SIZE then ERROR_WITNESS_SIZE
              else
                match env.extractWitnessLock w0 with
                | none => ERROR_ENCODING
                | some (o, s) =>
                  if s ≠ SIGNATURE_SIZE then ERROR_ARGUMENTS_LEN
                  else
                    match buildDigest env tx.txHash w0 o s
                        (tx.groupWitnesses.drop 1)
                        (tx.witnesses.drop tx.inputsLen) with
                    | Except.error e => e
                    | Except.ok message =>
                      if ¬ env.secpParse ((w0.drop o).take s) then
                        ERROR_SECP_PARSE_SIGNATURE
                      else
                        match env.secpRecover ((w0.drop o).take s) message with
                        | none => ERROR_SECP_RECOVER_PUBKEY
                        | some pubkey =>
                          match env.secpSerialize pubkey with
                          | none => ERROR_SECP_SERIALIZE_PUBKEY
                          | some pk33 =>
                            if chunkMatch args
                                ((blake2b_final env
                                  (blake2b_update blake2b_init pk33)).take
                                  BLAKE160_SIZE) then
                              CKB_SUCCESS
                            else ERROR_VALIDATOR_SIGNATURE_INVALID

/-- `main` (source lines 72-101): load the running script and check its
size, count the script-group cells among inputs and outputs, require
exactly one group output and at most one group input, then route to
`verify_init` or `verify_transfer`. -/
def crosschain_main (env : Env) (tx : Tx) : Int :=
  if tx.script.length > SCRIPT_SIZE then ERROR_SCRIPT_TOO_LONG
  else if get_cell_num tx.groupOutputCells ≠ 1 then ERROR_GROUP_OUTPUT_INVALID
  else if get_cell_num tx.groupInputCells ≠ 0 ∧ get_cell_num tx.groupInputCells ≠ 1 then
    ERROR_GROUP_INPUT_INVALID
  else if get_cell_num tx.groupInputCells = 0 then verify_init
  else verify_transfer env tx

/-- The documented failure codes of the spec's taxonomy (§7). -/
def errorCodes : List Int :=
  [ERROR_ARGUMENTS_LEN, ERROR_ENCODING, ERROR_SYSCALL, ERROR_SCRIPT_TOO_LONG,
   ERROR_WITNESS_SIZE, ERROR_GROUP_OUTPUT_INVALID, ERROR_GROUP_INPUT_INVALID,
   ERROR_CAPACITY_INVALID, ERROR_VALIDATOR_SIGNATURE_INVALID,
   ERROR_SECP_PARSE_SIGNATURE, ERROR_SECP_RECOVER_PUBKEY,
   ERROR_SECP_SERIALIZE_PUBKEY]

/-! Concrete instantiations of the abstract collaborators and of the
transaction data, used to evaluate the embedding at specific inputs. -/

/-- A concrete environment: the hash primitive returns a fixed 32-byte
value, the script args decode to one whole 20-byte chunk (matching that
hash's first 20 bytes) followed by one extra byte, the witness lock field
occupies the whole 65-byte witness, and the secp pipeline succeeds. -/
def env0 : Env where
  blake2b := fun _ => List.replicate 32 7
  decodeScriptArgs := fun _ => some (List.replicate 20 7 ++ [9])
  extractWitnessLock := fun _ => some (0, 65)
  secpParse := fun _ => true
  secpRecover := fun _ _ => some [1]
  secpSerialize := fun _ => some [2]

/-- `env0` with args of the proper length (one 20-byte chunk). -/
def env20 : Env :=
  { env0 with decodeScriptArgs := fun _ => some (List.replicate 20 7) }

/-- `env20` with a 64-byte lock field instead of 65. -/
def env64 : Env :=
  { env20 with extractWitnessLock := fun _ => some (0, 64) }

/-- `env0` with empty args and a signature that fails to parse. -/
def envNoParse : Env :=
  { env0 with decodeScriptArgs := fun _ => some [],
              secpParse := fun _ => false }

/-- `env0` with empty args and a working secp pipeline. -/
def envEmptyArgs : Env :=
  { env0 with decodeScriptArgs := fun _ => some [] }

/-- A concrete transfer transaction: one group input and one group output
of equal capacity, a single 65-byte witness, no extra witnesses. -/
def txT : Tx where
  script := [0]
  groupInputCells := [100]
  groupOutputCells := [100]
  groupWitnesses := [List.replicate 65 5]
  witnesses := []
  inputsLen := 0
  txHash := List.replicate 32 3

/-- `txT` with no cells at all in either group. -/
def txEmptyGroups : Tx :=
  { txT with groupInputCells := [], groupOutputCells := [] }

/-- `txT` with no group input (Init path). -/
def txInit : Tx :=
  { txT with groupInputCells := [] }

/-- `txT` with a strictly smaller output capacity. -/
def txShrink : Tx :=
  { txT with groupInputCells := [5], groupOutputCells := [3] }

/-- `txT` with an oversized script and no group-output cell. -/
def txBigScript : Tx :=
  { txT with script := List.replicate 32769 0, groupOutputCells := [] }

/-! ### C8 — the cell-group classifier counts the successful queries -/

/-- C8: the classifier's count for a source is exactly the number of
successful cell-data queries: the loop queries indices 0, 1, ... until the
host signals index-out-of-range, a query at `i` succeeds exactly when
`i` is below the resulting count, and the count equals the number of
successes among the queries the loop issues (indices 0 .. count). -/
theorem get_cell_num_spec (cells : List Nat) :
    get_cell_num cells =
      ((List.range (get_cell_num cells + 1)).filter
        (fun i => ckb_load_cell_data cells i == CKB_SUCCESS)).length
    ∧ ∀ i, ckb_load_cell_data cells i = CKB_SUCCESS ↔ i < get_cell_num cells := by
  rw [get_cell_num_eq_length]
  constructor
  · have hfilter : ∀ n : Nat,
        (List.range n).filter (fun i => ckb_load_cell_data cells i == CKB_SUCCESS)
          = (List.range n).filter (fun i => decide (i < cells.length)) := by
      intro n
      apply List.filter_congr
      intro i _
      unfold ckb_load_cell_data
      by_cases h : i < cells.length <;>
        simp [h, CKB_SUCCESS, CKB_INDEX_OUT_OF_BOUND]
    rw [hfilter, List.range_succ, List.filter_append]
    have hall : (List.range cells.length).filter
        (fun i => decide (i < cells.length)) = List.range cells.length := by
      apply List.filter_eq_self.mpr
      intro a ha
      simpa using List.mem_range.mp ha
    simp [hall]
  · intro i
    unfold ckb_load_cell_data
    by_cases h : i < cells.length <;>
      simp [h, CKB_SUCCESS, CKB_INDEX_OUT_OF_BOUND]

/-! ### C2 — the Init path -/

/-- C2 counterexample: a transaction with zero group-input cells is not
always accepted — with zero group-output cells the script returns the
group-output error, not success. -/
theorem init_requires_one_group_output :
    txEmptyGroups.groupInputCells.length = 0 ∧
      crosschain_main env0 txEmptyGroups = ERROR_GROUP_OUTPUT_INVALID ∧
      ERROR_GROUP_OUTPUT_INVALID ≠ CKB_SUCCESS := by
  refine ⟨rfl, by decide, by decide⟩

/-- C2 (amended): for every transaction with zero group-input cells whose
script is within the 32 KiB cap and which has exactly one group-output
cell, the script accepts, regardless of capacities, witnesses, or the
validator set in the args. -/
theorem init_accepts (env : Env) (tx : Tx)
    (hscript : tx.script.length ≤ SCRIPT_SIZE)
    (hin : tx.groupInputCells = [])
    (hout : tx.groupOutputCells.length = 1) :
    crosschain_main env tx = CKB_SUCCESS := by
  unfold crosschain_main
  rw [get_cell_num_eq_length, get_cell_num_eq_length, hin, hout]
  simp [verify_init, hscript]

/-- C2 witness: the amended theorem applied to the concrete Init
transaction. -/
theorem init_accepts_witness : crosschain_main env0 txInit = CKB_SUCCESS :=
  init_accepts env0 txInit (by decide) rfl rfl

/-- The witness-hashing loops fail only with the witness-size code. -/
lemma hashWitnessLoop_error (ws : List (List Nat)) :
    ∀ st e, hashWitnessLoop st ws = Except.error e → e = ERROR_WITNESS_SIZE := by
  induction ws with
  | nil =>
    intro st e h
    simp [hashWitnessLoop] at h
  | cons w rest ih =>
    intro st e h
    unfold hashWitnessLoop at h
    by_cases hw : w.length > MAX_WITNESS_SIZE
    · rw [if_pos hw] at h
      exact (Except.error.inj h).symm
    · rw [if_neg hw] at h
      exact ih _ e h

/-- The Signing-Message Builder fails only with the syscall or the
witness-size code. -/
lemma buildDigest_error (env : Env) (txHash w0 : List Nat) (o s : Nat)
    (gwsTail wsTail : List (List Nat)) (e : Int)
    (h : buildDigest env txHash w0 o s gwsTail wsTail = Except.error e) :
    e = ERROR_SYSCALL ∨ e = ERROR_WITNESS_SIZE := by
  unfold buildDigest at h
  by_cases hh : txHash.length ≠ BLAKE2B_BLOCK_SIZE
  · rw [if_pos hh] at h
    exact Or.inl (Except.error.inj h).symm
  · rw [if_neg hh] at h
    split at h
    · rename_i e1 hg
      have he : e1 = e := Except.error.inj h
      exact Or.inr (he ▸ hashWitnessLoop_error _ _ _ hg)
    · split at h
      · rename_i e1 hg
        have he : e1 = e := Except.error.inj h
        exact Or.inr (he ▸ hashWitnessLoop_error _ _ _ hg)
      · exact absurd h (by simp)

/-- The Signing-Message Builder never fails with the capacity code. -/
lemma buildDigest_ne_error_capacity (env : Env) (txHash w0 : List Nat)
    (o s : Nat) (gwsTail wsTail : List (List Nat)) :
    buildDigest env txHash w0 o s gwsTail wsTail ≠
      Except.error ERROR_CAPACITY_INVALID := by
  intro h
  rcases buildDigest_error env txHash w0 o s gwsTail wsTail _ h with h1 | h1 <;>
    simp [ERROR_SYSCALL, ERROR_WITNESS_SIZE, ERROR_CAPACITY_INVALID] at h1

/-! ### C7 — the capacity invariant check -/

/-- C7: on the Transfer path, once both capacity fields load, the script
returns the capacity-invalid error exactly when the group-input capacity
strictly exceeds the group-output capacity as unsigned 64-bit integers;
equal capacities pass this check. -/
theorem capacity_check_iff (env : Env) (tx : Tx) (cin cout : Nat)
    (hcin : tx.groupInputCells.get? 0 = some cin)
    (hcout : tx.groupOutputCells.get? 0 = some cout) :
    verify_transfer env tx = ERROR_CAPACITY_INVALID ↔
      cout % 2 ^ 64 < cin % 2 ^ 64 := by
  unfold verify_transfer
  simp only [hcin, hcout]
  by_cases hcap : cout % 2 ^ 64 < cin % 2 ^ 64
  · rw [if_pos hcap]
    exact iff_of_true rfl hcap
  · rw [if_neg hcap]
    constructor
    · intro h
      exfalso
      repeat' split at h
      all_goals try exact absurd h (by decide)
      all_goals
        rename_i e1 heq
        subst h
        exact buildDigest_ne_error_capacity _ _ _ _ _ _ _ heq
    · intro h
      exact absurd h hcap

/-- C7 witness: the capacity-invalid rejection evaluated on the concrete
shrinking transfer. -/
theorem capacity_check_iff_witness :
    verify_transfer env0 txShrink = ERROR_CAPACITY_INVALID :=
  (capacity_check_iff env0 txShrink 5 3 rfl rfl).mpr (by decide)

/-! ### C6 — group cardinality errors -/

/-- C6 counterexample: a transaction whose group-output count differs
from 1 is not always rejected with the group-output error — with an
oversized script the script-too-long error is returned first. -/
theorem group_output_check_after_script_len :
    get_cell_num txBigScript.groupOutputCells ≠ 1 ∧
      crosschain_main env0 txBigScript = ERROR_SCRIPT_TOO_LONG ∧
      ERROR_SCRIPT_TOO_LONG ≠ ERROR_GROUP_OUTPUT_INVALID := by
  refine ⟨by decide, ?_, by decide⟩
  have hs : txBigScript.script.length > SCRIPT_SIZE := by
    have hr : txBigScript.script = List.replicate 32769 0 := rfl
    rw [hr, List.length_replicate]
    norm_num [SCRIPT_SIZE]
  unfold crosschain_main
  rw [if_pos hs]

/-- C6 (amended): provided the script loads within the 32 KiB cap, a
group-output count other than 1 is rejected with the group-output error
regardless of the group-input count, and for group-input counts above 1
the group-input error is returned exactly when the group-output count is
1. -/
theorem group_check_codes (env : Env) (tx : Tx)
    (hscript : tx.script.length ≤ SCRIPT_SIZE) :
    (get_cell_num tx.groupOutputCells ≠ 1 →
      crosschain_main env tx = ERROR_GROUP_OUTPUT_INVALID) ∧
    (1 < get_cell_num tx.groupInputCells →
      (crosschain_main env tx = ERROR_GROUP_INPUT_INVALID ↔
        get_cell_num tx.groupOutputCells = 1)) := by
  unfold crosschain_main
  rw [if_neg (by omega)]
  constructor
  · intro hout
    rw [if_pos hout]
  · intro hin
    by_cases hout : get_cell_num tx.groupOutputCells = 1
    · rw [if_neg (by simpa using hout), if_pos (by omega)]
      exact iff_of_true rfl hout
    · rw [if_pos hout]
      exact iff_of_false (by decide) hout

/-- C6 witness: the amended theorem evaluated on a transaction with no
group-output cell. -/
theorem group_check_codes_witness :
    crosschain_main env0 txEmptyGroups = ERROR_GROUP_OUTPUT_INVALID :=
  (group_check_codes env0 txEmptyGroups (by decide)).1 (by decide)

/-! ### C5 — the args-length check -/

/-- C5 counterexample: a transaction whose script args length is not a
multiple of 20 is not rejected with the arguments-length error when the
group-input count is 0 — the Init path accepts it. -/
theorem args_len_not_checked_on_init :
    env0.decodeScriptArgs txInit.script = some (List.replicate 20 7 ++ [9]) ∧
      (List.replicate 20 7 ++ [9]).length % 20 ≠ 0 ∧
      crosschain_main env0 txInit = CKB_SUCCESS ∧
      CKB_SUCCESS ≠ ERROR_ARGUMENTS_LEN := by
  refine ⟨rfl, by decide, by decide, by decide⟩

/-- C5 (amended): on the Transfer path — exactly one group-input and one
group-output cell, script within the cap, group-input capacity at most the
group-output capacity, and args decoding successfully — an args length
that is not a multiple of 20 is rejected with the arguments-length error,
independent of the witnesses and of the particular capacity values. -/
theorem args_len_rejects (env : Env) (tx : Tx) (cin cout : Nat)
    (args : List Nat)
    (hcin : tx.groupInputCells = [cin])
    (hcout : tx.groupOutputCells = [cout])
    (hcap : cin % 2 ^ 64 ≤ cout % 2 ^ 64)
    (hscript : tx.script.length ≤ SCRIPT_SIZE)
    (hargs : env.decodeScriptArgs tx.script = some args)
    (hmod : args.length % BLAKE160_SIZE ≠ 0) :
    crosschain_main env tx = ERROR_ARGUMENTS_LEN := by
  have h1 : get_cell_num tx.groupInputCells = 1 := by
    simp [get_cell_num_eq_length, hcin]
  have h2 : get_cell_num tx.groupOutputCells = 1 := by
    simp [get_cell_num_eq_length, hcout]
  unfold crosschain_main
  rw [if_neg (by omega), if_neg (by simp [h2]), if_neg (by simp [h1]),
    if_neg (by simp [h1])]
  unfold verify_transfer
  simp only [hcin, hcout, List.get?]
  rw [if_neg (by omega), if_neg (by omega)]
  simp only [hargs]
  rw [if_pos hmod]

/-- C5 witness: the amended theorem evaluated on the concrete transfer
transaction whose args decode to 21 bytes. -/
theorem args_len_rejects_witness :
    crosschain_main env0 txT = ERROR_ARGUMENTS_LEN :=
  args_len_rejects env0 txT 100 100 (List.replicate 20 7 ++ [9])
    rfl rfl (by decide) (by decide) rfl (by decide)

/-- A successful witness-hashing loop absorbs exactly the length-prefixed
chunks of its witnesses, in order. -/
lemma hashWitnessLoop_ok {ws : List (List Nat)}
    (h : ∀ w ∈ ws, w.length ≤ MAX_WITNESS_SIZE) :
    ∀ st, hashWitnessLoop st ws = Except.ok (st ++ (ws.map witnessChunk).flatten) := by
  induction ws with
  | nil =>
    intro st
    simp [hashWitnessLoop]
  | cons w rest ih =>
    intro st
    unfold hashWitnessLoop
    rw [if_neg (Nat.not_lt.mpr (h w (List.mem_cons_self w rest)))]
    rw [ih (fun x hx => h x (List.mem_cons_of_mem _ hx)) _]
    simp [blake2b_update, witnessChunk, List.append_assoc]

/-! ### C3 — the signing digest is the hash of the canonical byte stream -/

/-- C3: on the Transfer path the 32-byte signing digest is the blake2b-256
hash of, in order: the 32-byte transaction hash; the 8-byte little-endian
length of witness 0 followed by witness 0 with its lock bytes zeroed; the
length-then-bytes chunks of the group-input-source witnesses from index 1
until out-of-range; the length-then-bytes chunks of the whole-transaction
witnesses from index `inputsLen` (the total number of transaction inputs)
until out-of-range. -/
theorem signing_digest_spec (env : Env) (tx : Tx) (w0 : List Nat) (o s : Nat)
    (hh : tx.txHash.length = BLAKE2B_BLOCK_SIZE)
    (hg : ∀ w ∈ tx.groupWitnesses.drop 1, w.length ≤ MAX_WITNESS_SIZE)
    (hw : ∀ w ∈ tx.witnesses.drop tx.inputsLen, w.length ≤ MAX_WITNESS_SIZE) :
    buildDigest env tx.txHash w0 o s (tx.groupWitnesses.drop 1)
        (tx.witnesses.drop tx.inputsLen) =
      Except.ok (env.blake2b (tx.txHash ++ le64 w0.length ++ maskLock w0 o s ++
        ((tx.groupWitnesses.drop 1).map witnessChunk).flatten ++
        ((tx.witnesses.drop tx.inputsLen).map witnessChunk).flatten)) := by
  unfold buildDigest
  rw [if_neg (by simp [hh])]
  simp only [hashWitnessLoop_ok hg, hashWitnessLoop_ok hw]
  simp [blake2b_update, blake2b_init, blake2b_final, List.append_assoc]

/-- C3 witness: the digest equation evaluated on the concrete transfer
transaction. -/
theorem signing_digest_spec_witness :
    buildDigest env0 txT.txHash (List.replicate 65 5) 0 65
        (txT.groupWitnesses.drop 1) (txT.witnesses.drop txT.inputsLen) =
      Except.ok (env0.blake2b (txT.txHash ++ le64 (List.replicate 65 5).length ++
        maskLock (List.replicate 65 5) 0 65 ++
        ((txT.groupWitnesses.drop 1).map witnessChunk).flatten ++
        ((txT.witnesses.drop txT.inputsLen).map witnessChunk).flatten)) :=
  signing_digest_spec env0 txT (List.replicate 65 5) 0 65 rfl
    (by simp [txT]) (by simp [txT])

/-! ### C4 — the digest is invariant under the original lock bytes -/

/-- C4: the signing digest does not depend on the original value of the
lock bytes of witness 0: two witness buffers of the same length that agree
outside the lock range produce the same Signing-Message Builder result,
because the lock bytes are zeroed before hashing. -/
theorem digest_lock_invariant (env : Env) (txHash w0 w0' : List Nat)
    (o s : Nat) (gwsTail wsTail : List (List Nat))
    (hlen : w0.length = w0'.length)
    (hpre : w0.take o = w0'.take o)
    (hpost : w0.drop (o + s) = w0'.drop (o + s)) :
    buildDigest env txHash w0 o s gwsTail wsTail =
      buildDigest env txHash w0' o s gwsTail wsTail := by
  have hmask : maskLock w0 o s = maskLock w0' o s := by
    unfold maskLock
    rw [hpre, hpost]
  unfold buildDigest
  rw [hlen, hmask]

/-- C4 witness: two witnesses differing only in the 65 lock bytes yield
the same digest. -/
theorem digest_lock_invariant_witness :
    buildDigest env0 (List.replicate 32 3) (List.replicate 65 5) 0 65 [] [] =
      buildDigest env0 (List.replicate 32 3) (List.replicate 65 6) 0 65 [] [] :=
  digest_lock_invariant env0 (List.replicate 32 3) (List.replicate 65 5)
    (List.replicate 65 6) 0 65 [] [] (by decide) (by decide) (by decide)

/-! ### C1 — acceptance condition of the Transfer path -/

/-- C1 counterexample: a transaction with one group input, one group
output, non-decreasing capacity, a 65-byte lock field and a recovered key
whose short hash equals an aligned 20-byte chunk of the args is still
rejected (with the arguments-length error) when the args length is not a
multiple of 20, so the claimed equivalence fails as stated. -/
theorem transfer_accept_missing_args_check :
    get_cell_num txT.groupInputCells = 1 ∧
      get_cell_num txT.groupOutputCells = 1 ∧
      (100 : Nat) % 2 ^ 64 ≤ (100 : Nat) % 2 ^ 64 ∧
      env0.extractWitnessLock (List.replicate 65 5) = some (0, 65) ∧
      buildDigest env0 txT.txHash (List.replicate 65 5) 0 65
          (txT.groupWitnesses.drop 1) (txT.witnesses.drop txT.inputsLen) =
        Except.ok (List.replicate 32 7) ∧
      recoverChain env0 (((List.replicate 65 5).drop 0).take 65)
          (List.replicate 32 7) = some [2] ∧
      chunkMatch (List.replicate 20 7 ++ [9])
        ((blake2b_final env0 (blake2b_update blake2b_init [2])).take
          BLAKE160_SIZE) = true ∧
      crosschain_main env0 txT = ERROR_ARGUMENTS_LEN ∧
      ERROR_ARGUMENTS_LEN ≠ CKB_SUCCESS := by
  refine ⟨by decide, by decide, by decide, rfl, by rfl, by rfl, by decide,
    by decide, by decide⟩

/-- C1 (amended): for a transaction with exactly one group-input and one
group-output cell, under the well-formedness side conditions the source
checks before and while building the digest — script within the cap and
decoding to `args` whose length is a multiple of 20, witness 0 present,
within the cap and with an extractable lock field, and the digest building
succeeding — the script accepts exactly when the group-input capacity is
at most the group-output capacity, the lock field is 65 bytes, and the
secp pipeline recovers a key whose blake160 short hash equals some aligned
20-byte chunk of the args. -/
theorem transfer_accept_iff (env : Env) (tx : Tx) (cin cout : Nat)
    (w0 : List Nat) (o s : Nat) (args msg : List Nat)
    (hcin : tx.groupInputCells = [cin])
    (hcout : tx.groupOutputCells = [cout])
    (hscript : tx.script.length ≤ SCRIPT_SIZE)
    (hargs : env.decodeScriptArgs tx.script = some args)
    (hmod : args.length % BLAKE160_SIZE = 0)
    (hw0 : tx.groupWitnesses.get? 0 = some w0)
    (hw0len : w0.length ≤ MAX_WITNESS_SIZE)
    (hlock : env.extractWitnessLock w0 = some (o, s))
    (hmsg : buildDigest env tx.txHash w0 o s (tx.groupWitnesses.drop 1)
        (tx.witnesses.drop tx.inputsLen) = Except.ok msg) :
    crosschain_main env tx = CKB_SUCCESS ↔
      cin % 2 ^ 64 ≤ cout % 2 ^ 64 ∧ s = SIGNATURE_SIZE ∧
        ∃ pk33, recoverChain env ((w0.drop o).take s) msg = some pk33 ∧
          chunkMatch args ((blake2b_final env
            (blake2b_update blake2b_init pk33)).take BLAKE160_SIZE) = true := by
  have h1 : get_cell_num tx.groupInputCells = 1 := by
    simp [get_cell_num_eq_length, hcin]
  have h2 : get_cell_num tx.groupOutputCells = 1 := by
    simp [get_cell_num_eq_length, hcout]
  unfold crosschain_main
  rw [if_neg (by omega), if_neg (by simp [h2]), if_neg (by simp [h1]),
    if_neg (by simp [h1])]
  unfold verify_transfer
  simp only [hcin, hcout, List.get?]
  by_cases hcap : cout % 2 ^ 64 < cin % 2 ^ 64
  · rw [if_pos hcap]
    constructor
    · intro habs
      exact absurd habs (by decide)
    · rintro ⟨hle, -⟩
      omega
  · rw [if_neg hcap, if_neg (by omega)]
    simp only [hargs]
    rw [if_neg (by simp [hmod])]
    simp only [hw0]
    rw [if_neg (by omega)]
    simp only [hlock]
    by_cases hs : s = SIGNATURE_SIZE
    · rw [if_neg (by simp [hs])]
      simp only [hmsg]
      by_cases hp : env.secpParse ((w0.drop o).take s) = true
      · rw [if_neg (by simp [hp])]
        cases hr : env.secpRecover ((w0.drop o).take s) msg with
        | none =>
          simp only [hr]
          constructor
          · intro habs
            exact absurd habs (by decide)
          · rintro ⟨-, -, pk33, hchain, -⟩
            unfold recoverChain at hchain
            rw [if_pos hp] at hchain
            simp only [hr] at hchain
            exact absurd hchain (by simp)
        | some pk =>
          simp only [hr]
          cases hser : env.secpSerialize pk with
          | none =>
            simp only [hser]
            constructor
            · intro habs
              exact absurd habs (by decide)
            · rintro ⟨-, -, pk33, hchain, -⟩
              unfold recoverChain at hchain
              rw [if_pos hp] at hchain
              simp only [hr, hser] at hchain
              exact absurd hchain (by simp)
          | some pk33 =>
            simp only [hser]
            by_cases hm : chunkMatch args ((blake2b_final env
                (blake2b_update blake2b_init pk33)).take BLAKE160_SIZE) = true
            · rw [if_pos hm]
              refine iff_of_true rfl ⟨by omega, hs, pk33, ?_, hm⟩
              unfold recoverChain
              rw [if_pos hp]
              simp only [hr, hser]
            · rw [if_neg hm]
              constructor
              · intro habs
                exact absurd habs (by decide)
              · rintro ⟨-, -, pk33', hchain, hm'⟩
                unfold recoverChain at hchain
                rw [if_pos hp] at hchain
                simp only [hr, hser] at hchain
                have hpk : pk33 = pk33' := Option.some.inj hchain
                exact absurd (hpk ▸ hm') hm
      · rw [if_pos hp]
        constructor
        · intro habs
          exact absurd habs (by decide)
        · rintro ⟨-, -, pk33, hchain, -⟩
          unfold recoverChain at hchain
          rw [if_neg hp] at hchain
          exact absurd hchain (by simp)
    · rw [if_pos hs]
      constructor
      · intro habs
        exact absurd habs (by decide)
      · rintro ⟨-, hs65, -⟩
        exact absurd hs65 hs

/-- C1 witness: the amended equivalence applied to a fully accepting
concrete transfer transaction. -/
theorem transfer_accept_iff_witness :
    crosschain_main env20 txT = CKB_SUCCESS :=
  (transfer_accept_iff env20 txT 100 100 (List.replicate 65 5) 0 65
      (List.replicate 20 7) (List.replicate 32 7)
      rfl rfl (by decide) rfl (by decide) rfl (by decide) rfl (by rfl)).mpr
    ⟨by decide, rfl, [2], by rfl, by decide⟩

/-- A successful secp pipeline decomposes into its three stages. -/
lemma recoverChain_some {env : Env} {lock msg pk33 : List Nat}
    (h : recoverChain env lock msg = some pk33) :
    env.secpParse lock = true ∧
      ∃ pk, env.secpRecover lock msg = some pk ∧
        env.secpSerialize pk = some pk33 := by
  unfold recoverChain at h
  by_cases hp : env.secpParse lock
  · rw [if_pos hp] at h
    cases hr : env.secpRecover lock msg with
    | none =>
      simp only [hr] at h
      exact absurd h (by simp)
    | some pk =>
      simp only [hr] at h
      exact ⟨hp, pk, rfl, h⟩
  · rw [if_neg hp] at h
    exact absurd h (by simp)

/-! ### C9 — the status-code taxonomy -/

/-- Every Transfer-path outcome is success or a documented negative code. -/
lemma verify_transfer_status (env : Env) (tx : Tx) (cin cout : Nat)
    (hcin : tx.groupInputCells.get? 0 = some cin)
    (hcout : tx.groupOutputCells.get? 0 = some cout) :
    verify_transfer env tx = CKB_SUCCESS ∨
      (verify_transfer env tx ∈ errorCodes ∧ verify_transfer env tx < 0) := by
  unfold verify_transfer
  simp only [hcin, hcout]
  repeat' split
  all_goals try (left; rfl)
  all_goals try (right; exact ⟨by decide, by decide⟩)
  all_goals
    rename_i e1 heq
    rcases buildDigest_error _ _ _ _ _ _ _ _ heq with h | h <;> subst h <;>
      exact Or.inr ⟨by decide, by decide⟩

/-- C9 counterexample: two distinct failure causes share the code -1 —
an args length that is not a multiple of 20, and a lock field of 64 bytes
with well-formed 20-byte args — so failure causes are not mapped to
distinct codes. -/
theorem error_code_shared :
    (env0.decodeScriptArgs txT.script = some (List.replicate 20 7 ++ [9]) ∧
      (List.replicate 20 7 ++ [9]).length % 20 ≠ 0 ∧
      crosschain_main env0 txT = ERROR_ARGUMENTS_LEN) ∧
    (env64.decodeScriptArgs txT.script = some (List.replicate 20 7) ∧
      (List.replicate 20 7).length % 20 = 0 ∧
      env64.extractWitnessLock (List.replicate 65 5) = some (0, 64) ∧
      (64 : Nat) ≠ SIGNATURE_SIZE ∧
      crosschain_main env64 txT = ERROR_ARGUMENTS_LEN) := by
  refine ⟨⟨rfl, by decide, by decide⟩, ⟨rfl, by decide, rfl, by decide, by decide⟩⟩

/-- C9 (amended): every invocation terminates with success or with one of
the documented negative codes of the taxonomy — never with a raw positive
host value — but codes are shared between related causes within a
category (-1 covers both the args-length and the signature-length
failures). -/
theorem main_status_taxonomy (env : Env) (tx : Tx) :
    crosschain_main env tx = CKB_SUCCESS ∨
      (crosschain_main env tx ∈ errorCodes ∧ crosschain_main env tx < 0) := by
  unfold crosschain_main
  by_cases hscript : tx.script.length > SCRIPT_SIZE
  · rw [if_pos hscript]
    exact Or.inr ⟨by decide, by decide⟩
  · rw [if_neg hscript]
    by_cases hout : get_cell_num tx.groupOutputCells ≠ 1
    · rw [if_pos hout]
      exact Or.inr ⟨by decide, by decide⟩
    · rw [if_neg hout]
      by_cases hin : get_cell_num tx.groupInputCells ≠ 0 ∧
          get_cell_num tx.groupInputCells ≠ 1
      · rw [if_pos hin]
        exact Or.inr ⟨by decide, by decide⟩
      · rw [if_neg hin]
        by_cases hz : get_cell_num tx.groupInputCells = 0
        · rw [if_pos hz]
          exact Or.inl rfl
        · rw [if_neg hz]
          have hone : get_cell_num tx.groupInputCells = 1 := by
            by_contra hne
            exact hin ⟨hz, hne⟩
          have hone2 : get_cell_num tx.groupOutputCells = 1 := not_not.mp hout
          obtain ⟨cin, hcin⟩ := List.length_eq_one.mp
            (by rw [← get_cell_num_eq_length]; exact hone)
          obtain ⟨cout, hcout⟩ := List.length_eq_one.mp
            (by rw [← get_cell_num_eq_length]; exact hone2)
          exact verify_transfer_status env tx cin cout
            (by rw [hcin]; rfl) (by rw [hcout]; rfl)

/-! ### C10 — empty validator set -/

/-- C10 counterexample: with empty args, a Transfer-path transaction is
not always rejected with the validator-signature error — a signature that
fails to parse yields the parse error instead, so the outcome does depend
on the signature. -/
theorem empty_args_error_depends_on_signature :
    envNoParse.decodeScriptArgs txT.script = some [] ∧
      crosschain_main envNoParse txT = ERROR_SECP_PARSE_SIGNATURE ∧
      ERROR_SECP_PARSE_SIGNATURE ≠ ERROR_VALIDATOR_SIGNATURE_INVALID := by
  refine ⟨rfl, by decide, by decide⟩

/-- C10 (amended): if the args decode to the empty byte string, then every
Transfer-path transaction that reaches the validator matcher — capacities
in order, witness 0 well-formed with a 65-byte lock, digest built, and the
signature parsing, recovering and serializing successfully — is rejected
with the validator-signature error: the matcher performs no comparisons
over empty args. -/
theorem empty_args_rejects (env : Env) (tx : Tx) (cin cout : Nat)
    (w0 : List Nat) (o : Nat) (msg pk33 : List Nat)
    (hcin : tx.groupInputCells = [cin])
    (hcout : tx.groupOutputCells = [cout])
    (hcap : cin % 2 ^ 64 ≤ cout % 2 ^ 64)
    (hscript : tx.script.length ≤ SCRIPT_SIZE)
    (hargs : env.decodeScriptArgs tx.script = some [])
    (hw0 : tx.groupWitnesses.get? 0 = some w0)
    (hw0len : w0.length ≤ MAX_WITNESS_SIZE)
    (hlock : env.extractWitnessLock w0 = some (o, SIGNATURE_SIZE))
    (hmsg : buildDigest env tx.txHash w0 o SIGNATURE_SIZE
        (tx.groupWitnesses.drop 1) (tx.witnesses.drop tx.inputsLen) =
      Except.ok msg)
    (hrec : recoverChain env ((w0.drop o).take SIGNATURE_SIZE) msg =
      some pk33) :
    crosschain_main env tx = ERROR_VALIDATOR_SIGNATURE_INVALID := by
  have h1 : get_cell_num tx.groupInputCells = 1 := by
    simp [get_cell_num_eq_length, hcin]
  have h2 : get_cell_num tx.groupOutputCells = 1 := by
    simp [get_cell_num_eq_length, hcout]
  obtain ⟨hp, pk, hr, hser⟩ := recoverChain_some hrec
  unfold crosschain_main
  rw [if_neg (by omega), if_neg (by simp [h2]), if_neg (by simp [h1]),
    if_neg (by simp [h1])]
  unfold verify_transfer
  simp only [hcin, hcout, List.get?]
  rw [if_neg (by omega), if_neg (by omega)]
  simp only [hargs]
  rw [if_neg (by simp)]
  simp only [hw0]
  rw [if_neg (by omega)]
  simp only [hlock]
  rw [if_neg (by simp)]
  simp only [hmsg]
  rw [if_neg (by simp [hp])]
  simp only [hr, hser]
  rw [if_neg (by simp [chunkMatch, chunkMatchLoop, BLAKE160_SIZE])]

/-- C10 witness: the amended theorem evaluated with empty args and a
working secp pipeline. -/
theorem empty_args_rejects_witness :
    crosschain_main envEmptyArgs txT = ERROR_VALIDATOR_SIGNATURE_INVALID :=
  empty_args_rejects envEmptyArgs txT 100 100 (List.replicate 65 5) 0
    (List.replicate 32 7) [2] rfl rfl (by decide) (by decide) rfl rfl
    (by decide) rfl (by rfl) (by rfl)

end Crosschain
